import Mathlib

/-!
Shallow embedding of the Smart Tutor frontend client (`src/app.js`).

The client is a single-page app: an upload workflow and a chat workflow
share one mutable state object (`state.sessionId`, `state.isProcessing`,
`state.currentFiles`) and mutate the DOM.  We embed each handler as a pure
function from an explicit application state (plus the backend's behaviour
for the one network call the handler may perform) to a new state together
with an ordered trace of observable effects (toast notifications and
network requests).  DOM pieces the claims talk about (active screen,
transcript children of `#chat-messages`, the upload zone's idle/processing
visibility, the progress bar, the message input, the send button) are
fields of the state; purely cosmetic DOM work (icons, scrolling, focus,
textarea autosize, the character counter, and the random fake-progress
interval, whose value is overwritten by `updateProgress(100)` or
`updateProgress(0)` before the handler finishes) is not modelled.
-/

namespace SmartTutor

/-! `CONFIG` object of `app.js` (lines 2–8). -/
namespace CONFIG

def API_BASE_URL : String := "https://1530a510a334.ngrok-free.app"

/-- 10 MB limit, `10 * 1024 * 1024` bytes. -/
def MAX_FILE_SIZE : Nat := 10 * 1024 * 1024

def MAX_MESSAGE_LENGTH : Nat := 2000

def TOAST_DURATION : Nat := 4000

def SESSION_STORAGE_KEY : String := "smart_tutor_session_id"

end CONFIG

/-- A selected `File` as the validation code reads it: `name`, MIME `type`,
and `size` in bytes. -/
structure JSFile where
  name : String
  type : String
  size : Nat
deriving Repr, DecidableEq

/-- Toast severities accepted by `showToast` (`app.js` line 53). -/
inductive ToastType
  | success
  | error
  | warning
  | info
deriving Repr, DecidableEq

/-- A source citation `{source, page}` from a chat response's `context`. -/
structure SourceRef where
  source : String
  page : Int
deriving Repr, DecidableEq

/-- Message roles used by `addMessage`. -/
inductive Role
  | user
  | bot
deriving Repr, DecidableEq

/-- A child of the `#chat-messages` container: either a rendered message
(`addMessage`, lines 357–407) or the typing indicator div
(`showTypingIndicator`, lines 424–443). -/
inductive TranscriptEntry
  | message (role : Role) (text : String) (sources : List SourceRef)
  | typingIndicator
deriving Repr, DecidableEq

/-- The network requests the client can issue (endpoint plus the data that
identifies the call). -/
inductive Request
  | sessionInit
  | upload (sessionId : String) (files : List JSFile)
  | chat (sessionId : String) (query : String)
deriving Repr, DecidableEq

/-- Observable effects a handler emits, in order: toast notifications
(`showToast`) and network requests (`fetch`). -/
inductive Event
  | toast (message : String) (ty : ToastType)
  | networkRequest (req : Request)
deriving Repr, DecidableEq

/-- Number of network requests in an effect trace. -/
def networkCalls (trace : List Event) : Nat :=
  trace.countP fun e => match e with
    | .networkRequest _ => true
    | _ => false

/-- Which screen div carries the `active` class (`switchScreen`, lines
107–116): exactly one of the two. -/
inductive Screen
  | upload
  | chat
deriving Repr, DecidableEq

/-- The mutable client state: the `state` object of `app.js` (lines 11–15)
together with the DOM state the claims are about. -/
structure AppState where
  sessionId : Option String
  isProcessing : Bool
  currentFiles : List JSFile
  activeScreen : Screen
  transcript : List TranscriptEntry
  messageInputValue : String
  sendBtnDisabled : Bool
  uploadIdleHidden : Bool
  uploadProcessingHidden : Bool
  uploadZonePointerEvents : String
  progress : Nat
deriving Repr, DecidableEq

/-- JavaScript `x || d` for an optional string `x` (absent and `""` are both
falsy). -/
def jsOrOpt (x : Option String) (d : String) : String :=
  match x with
  | some s => if s = "" then d else s
  | none => d

/-- JavaScript `x || d` for a string `x` (`""` is falsy). -/
def jsOrStr (x d : String) : String :=
  if x = "" then d else x

/-- JavaScript `String.prototype.trim()`: the string with whitespace
stripped from both ends (structural recursion over the character list, so
that concrete runs reduce). -/
def jsTrim (s : String) : String :=
  String.mk
    (((s.data.dropWhile Char.isWhitespace).reverse.dropWhile
        Char.isWhitespace).reverse)

/-- `formatFileSize` (lines 96–102) uses floating-point `Math.log`; it is
only ever applied to `CONFIG.MAX_FILE_SIZE` in a validation message, where
it evaluates to this constant (`10485760 / 1024^2 = 10`, unit `MB`). -/
def maxFileSizeLabel : String := "10 MB"

/-- `validateFiles` (lines 245–261): per file, push a type error when the
MIME type is not exactly `application/pdf`, then a size error when the size
exceeds `CONFIG.MAX_FILE_SIZE`; return the collected error strings. -/
def validateFiles (files : List JSFile) : List String :=
  match files with
  | [] => []
  | file :: rest =>
      ((if file.type ≠ "application/pdf" then
          [file.name ++ ": Only PDF files are allowed"]
        else []) ++
       (if file.size > CONFIG.MAX_FILE_SIZE then
          [file.name ++ ": File size exceeds " ++ maxFileSizeLabel ++ " limit"]
        else [])) ++ validateFiles rest

/-- `addMessage(role, content, context)` (lines 357–407): appends one
message div; the sources block is rendered only when `context` is non-null
and non-empty. -/
def addMessage (transcript : List TranscriptEntry) (role : Role)
    (content : String) (context : Option (List SourceRef)) :
    List TranscriptEntry :=
  let sources :=
    match context with
    | some ctx => if ctx.length > 0 then ctx else []
    | none => []
  transcript ++ [.message role content sources]

/-- `removeTypingIndicator` (lines 448–453): `getElementById` finds the
first element with id `typing-indicator` (document order) and removes it;
absent indicator is a no-op. -/
def removeTypingIndicator : List TranscriptEntry → List TranscriptEntry
  | [] => []
  | .typingIndicator :: rest => rest
  | .message r t s :: rest => .message r t s :: removeTypingIndicator rest

/-- Fallback welcome text in `showWelcomeMessage` (line 270). -/
def fallbackWelcome : String :=
  "I've finished processing your documents. What would you like to explore?"

/-- `showWelcomeMessage(files, welcomeMessage)` (lines 268–274): appends
one bot message with the backend text, or the fallback when that text is
falsy (absent or empty). -/
def showWelcomeMessage (transcript : List TranscriptEntry)
    (welcomeMessage : Option String) : List TranscriptEntry :=
  addMessage transcript .bot (jsOrOpt welcomeMessage fallbackWelcome) none

/-- Backend behaviour for the one `fetch` in `uploadFiles`: a 2xx response
with parsed JSON (whose `welcome_message` field may be absent or any
string), a non-2xx response whose JSON body may carry a `detail` string, or
a transport failure / unparseable body (the thrown error's message). -/
inductive UploadOutcome
  | ok (welcome_message : Option String)
  | httpError (detail : Option String)
  | netFail (message : String)
deriving Repr, DecidableEq

/-- What `uploadFiles` produces for its caller: the literal `false` when no
session id is set, the parsed response data on success, or a thrown error. -/
inductive UploadFilesResult
  | falseNoSession
  | success (welcome_message : Option String)
  | thrown (message : String)
deriving Repr, DecidableEq

/-- `uploadFiles(files)` (lines 169–203): with no session id, toast an
error and return `false` (no request); otherwise issue the upload request
and either return the parsed data or throw `errorData.detail || 'Upload
failed'` (application failure) / the transport error. -/
def uploadFiles (st : AppState) (files : List JSFile)
    (outcome : UploadOutcome) : UploadFilesResult × List Event :=
  match st.sessionId with
  | none =>
      (.falseNoSession,
       [.toast "No active session. Please refresh the page." .error])
  | some sid =>
      match outcome with
      | .ok wm => (.success wm, [.networkRequest (.upload sid files)])
      | .httpError detail =>
          (.thrown (jsOrOpt detail "Upload failed"),
           [.networkRequest (.upload sid files)])
      | .netFail m => (.thrown m, [.networkRequest (.upload sid files)])

/-- `handleFileUpload(files)` (lines 279–342).  Returns the state and
effect trace after the attempt has fully settled, including the work the
800 ms `setTimeout` defers on success (screen switch and welcome message)
and the `finally` reset of `state.isProcessing`.  On the success path
`result.welcome_message` is read off the returned value; when `uploadFiles`
returned `false` (no session) that property access yields `undefined`, so
the fallback welcome is used. -/
def handleFileUpload (st : AppState) (files : List JSFile)
    (outcome : UploadOutcome) : AppState × List Event :=
  if st.isProcessing then (st, [])
  else
    let errors := validateFiles files
    if errors.length > 0 then
      (st, errors.map fun e => .toast e .error)
    else
      let st1 : AppState :=
        { st with isProcessing := true, currentFiles := files,
                  uploadIdleHidden := true, uploadProcessingHidden := false,
                  uploadZonePointerEvents := "none" }
      match uploadFiles st1 files outcome with
      | (.thrown msg, evs) =>
          ({ st1 with
              uploadIdleHidden := false, uploadProcessingHidden := true,
              uploadZonePointerEvents := "auto", progress := 0,
              isProcessing := false },
           evs ++
           [.toast (jsOrStr msg "Failed to upload files. Please try again.")
              .error])
      | (.falseNoSession, evs) =>
          ({ st1 with
              progress := 100, activeScreen := .chat,
              transcript := showWelcomeMessage st1.transcript none,
              isProcessing := false },
           evs ++
           [.toast ("Successfully processed " ++ toString files.length ++
                    " file(s)") .success])
      | (.success wm, evs) =>
          ({ st1 with
              progress := 100, activeScreen := .chat,
              transcript := showWelcomeMessage st1.transcript wm,
              isProcessing := false },
           evs ++
           [.toast ("Successfully processed " ++ toString files.length ++
                    " file(s)") .success])

/-- Backend behaviour for the one `fetch` in `sendChatMessage`: a 2xx
response with parsed JSON (`answer` may be absent or any string, `context`
may be absent or a list of source refs), a non-2xx response whose JSON body
may carry a `detail` string, or a transport failure / unparseable body. -/
inductive ChatOutcome
  | ok (answer : Option String) (context : Option (List SourceRef))
  | httpError (detail : Option String)
  | netFail (message : String)
deriving Repr, DecidableEq

/-- What `sendChatMessage` produces for its caller: the literal `null` when
no session id is set, the parsed response data, or a thrown error. -/
inductive SendChatResult
  | nullNoSession
  | success (answer : Option String) (context : Option (List SourceRef))
  | thrown (message : String)
deriving Repr, DecidableEq

/-- `sendChatMessage(query)` (lines 208–238): with no session id, toast an
error and return `null` (no request); otherwise issue the chat request and
either return the parsed data or throw `errorData.detail || 'Chat request
failed'` (application failure) / the transport error. -/
def sendChatMessage (st : AppState) (query : String)
    (outcome : ChatOutcome) : SendChatResult × List Event :=
  match st.sessionId with
  | none =>
      (.nullNoSession,
       [.toast "No active session. Please refresh the page." .error])
  | some sid =>
      match outcome with
      | .ok a c => (.success a c, [.networkRequest (.chat sid query)])
      | .httpError detail =>
          (.thrown (jsOrOpt detail "Chat request failed"),
           [.networkRequest (.chat sid query)])
      | .netFail m => (.thrown m, [.networkRequest (.chat sid query)])

/-- Fixed fallback appended when the response is null or carries no answer
text (line 501). -/
def noResponseApology : String :=
  "I apologize, but I couldn't generate a response. Please try again."

/-- Fixed error message appended when the chat request throws (line 509). -/
def connectionErrorMessage : String :=
  "⚠️ I'm having trouble connecting to the server. Please check your connection and try again."

/-- `handleSendMessage()` (lines 465–517).  Returns the state and effect
trace after the attempt has fully settled, including the `finally` reset of
`state.isProcessing` and the send button.  The JS condition
`response && response.answer` is true exactly when `sendChatMessage`
returned data whose `answer` is a non-empty string. -/
def handleSendMessage (st : AppState) (outcome : ChatOutcome) :
    AppState × List Event :=
  let message := jsTrim st.messageInputValue
  if (message == "") || st.isProcessing then (st, [])
  else if message.length > CONFIG.MAX_MESSAGE_LENGTH then
    (st,
     [.toast ("Message exceeds " ++ toString CONFIG.MAX_MESSAGE_LENGTH ++
              " characters") .warning])
  else
    let st1 : AppState :=
      { st with isProcessing := true, sendBtnDisabled := true,
                transcript := addMessage st.transcript .user message none,
                messageInputValue := "" }
    let st2 : AppState :=
      { st1 with transcript := st1.transcript ++ [.typingIndicator] }
    let done (t : List TranscriptEntry) (evs : List Event) :
        AppState × List Event :=
      ({ st2 with transcript := t, isProcessing := false,
                  sendBtnDisabled := false }, evs)
    match sendChatMessage st2 message outcome with
    | (.nullNoSession, evs) =>
        done (addMessage (removeTypingIndicator st2.transcript) .bot
                noResponseApology none) evs
    | (.success a c, evs) =>
        let t := removeTypingIndicator st2.transcript
        match a with
        | some answer =>
            if answer = "" then
              done (addMessage t .bot noResponseApology none) evs
            else
              done (addMessage t .bot answer
                      (some (match c with | some l => l | none => []))) evs
        | none => done (addMessage t .bot noResponseApology none) evs
    | (.thrown _, evs) =>
        done (addMessage (removeTypingIndicator st2.transcript) .bot
                connectionErrorMessage none)
          (evs ++
           [.toast "Failed to send message. Please try again." .error])

/-- Backend behaviour for the `fetch` in `initializeSession`: a 2xx
response with JSON `{session_id}`, a non-2xx response, or a transport
failure. -/
inductive InitOutcome
  | ok (session_id : String)
  | httpError
  | netFail (message : String)
deriving Repr, DecidableEq

/-- `initializeSession()` (lines 131–164), as a function of the value
stored in `sessionStorage` and the backend's behaviour.  Returns the
session id the function returns (`null` on failure), the stored value
afterwards, and the effect trace.  With a stored id, no request is made;
otherwise one `POST /session/init` is issued, a non-2xx answer throws
`Failed to initialize session`, and every failure is caught and converted
into an error toast and a `null` return with nothing persisted. -/
def initializeSession (stored : Option String) (outcome : InitOutcome) :
    Option String × Option String × List Event :=
  match stored with
  | some sid => (some sid, some sid, [])
  | none =>
      match outcome with
      | .ok sid =>
          (some sid, some sid, [.networkRequest .sessionInit])
      | .httpError =>
          (none, none,
           [.networkRequest .sessionInit,
            .toast "Failed to connect to server. Please check if the backend is running."
              .error])
      | .netFail _ =>
          (none, none,
           [.networkRequest .sessionInit,
            .toast "Failed to connect to server. Please check if the backend is running."
              .error])

/-- A concrete idle client state: session established, nothing in flight,
upload screen showing its idle view. -/
def baseState : AppState :=
  { sessionId := some "session-1", isProcessing := false, currentFiles := [],
    activeScreen := .upload, transcript := [], messageInputValue := "",
    sendBtnDisabled := false, uploadIdleHidden := false,
    uploadProcessingHidden := true, uploadZonePointerEvents := "auto",
    progress := 0 }

/-- A concrete valid selection: a 5 MB PDF. -/
def validPdf : JSFile :=
  { name := "notes.pdf", type := "application/pdf", size := 5 * 1024 * 1024 }

/-- A concrete file violating both validation rules: wrong MIME type and
20 MB. -/
def badDocx : JSFile :=
  { name := "essay.docx", type := "text/plain", size := 20 * 1024 * 1024 }

/-- A concrete over-limit chat message: 2001 letters. -/
def longMessage : String := String.mk (List.replicate 2001 'a')

/-- A file offending the upload validation: wrong MIME type or oversized. -/
def isOffending (f : JSFile) : Bool :=
  decide (f.type ≠ "application/pdf" ∨ f.size > CONFIG.MAX_FILE_SIZE)

/-- How many of the two validation rules a file violates (the loop in
`validateFiles` pushes one message per violated rule). -/
def ruleViolations (f : JSFile) : Nat :=
  (if f.type ≠ "application/pdf" then 1 else 0) +
  (if f.size > CONFIG.MAX_FILE_SIZE then 1 else 0)

/-- Total rule violations over a selection. -/
def totalRuleViolations (files : List JSFile) : Nat :=
  (files.map ruleViolations).sum

/-! Helper lemmas shared by the claim theorems. -/

/-- `validateFiles` returns no error exactly when every file is a PDF of
admissible size. -/
theorem validateFiles_eq_nil_iff (files : List JSFile) :
    validateFiles files = [] ↔
      ∀ f ∈ files,
        f.type = "application/pdf" ∧ f.size ≤ CONFIG.MAX_FILE_SIZE := by
  induction files with
  | nil => simp [validateFiles]
  | cons f rest ih =>
      by_cases h1 : f.type = "application/pdf" <;>
        by_cases h2 : f.size ≤ CONFIG.MAX_FILE_SIZE <;>
          simp [validateFiles, h1, h2, ih, Nat.not_le.mpr, Nat.not_lt.mpr]

/-- A selection with an offending file fails validation. -/
theorem validateFiles_ne_nil_of_offending (files : List JSFile)
    (h : ∃ f ∈ files, isOffending f = true) : validateFiles files ≠ [] := by
  rintro hnil
  obtain ⟨f, hf, hoff⟩ := h
  have hok := (validateFiles_eq_nil_iff files).mp hnil f hf
  simp only [isOffending, decide_eq_true_eq] at hoff
  rcases hoff with h' | h'
  · exact h' hok.1
  · exact absurd hok.2 (Nat.not_le.mpr h')

/-- One message per violated rule: the length of the validation error list. -/
theorem validateFiles_length (files : List JSFile) :
    (validateFiles files).length = totalRuleViolations files := by
  induction files with
  | nil => rfl
  | cons f rest ih =>
      simp only [validateFiles, totalRuleViolations, ruleViolations,
        List.map_cons, List.sum_cons, List.length_append]
      have hrest : (List.map ruleViolations rest).sum =
          totalRuleViolations rest := rfl
      rw [hrest, ih]
      split_ifs <;> simp

/-- Toast-only traces contain no network request. -/
theorem networkCalls_toasts (msgs : List String) (ty : ToastType) :
    networkCalls (msgs.map fun e => Event.toast e ty) = 0 := by
  induction msgs with
  | nil => rfl
  | cons m rest ih => simp [networkCalls, List.countP_cons] at ih ⊢

/-- `handleFileUpload` leaves the busy flag as it found it: a busy start is
a no-op and a non-busy start ends with the `finally` reset to `false`. -/
theorem handleFileUpload_isProcessing_eq (st : AppState)
    (files : List JSFile) (uo : UploadOutcome) :
    (handleFileUpload st files uo).fst.isProcessing = st.isProcessing := by
  unfold handleFileUpload
  split
  · rfl
  · next h =>
      dsimp only
      split
      · rfl
      · split <;> simp_all

/-- `handleSendMessage` leaves the busy flag as it found it. -/
theorem handleSendMessage_isProcessing_eq (st : AppState)
    (co : ChatOutcome) :
    (handleSendMessage st co).fst.isProcessing = st.isProcessing := by
  unfold handleSendMessage
  dsimp only
  split
  · rfl
  · next h =>
      split
      · rfl
      · split
        · simp_all
        · split
          · split <;> simp_all
          · simp_all
        · simp_all

/-- A busy `handleFileUpload` trigger is dropped with no effects. -/
theorem handleFileUpload_busy (st : AppState) (files : List JSFile)
    (uo : UploadOutcome) (h : st.isProcessing = true) :
    handleFileUpload st files uo = (st, []) := by
  unfold handleFileUpload
  simp [h]

/-- A busy `handleSendMessage` trigger is dropped with no effects. -/
theorem handleSendMessage_busy (st : AppState) (co : ChatOutcome)
    (h : st.isProcessing = true) :
    handleSendMessage st co = (st, []) := by
  unfold handleSendMessage
  simp [h]

/-- C1: both workflows guard on the one shared busy flag — a trigger that
arrives while `state.isProcessing` is set is dropped as a no-op (state
unchanged, no effects, nothing queued), and whatever the attempt's outcome
(success, application error, transport error, validation error) the flag is
back to `false` when the attempt ends, so at most one processing operation
is in flight at a time. -/
theorem busy_flag_mutual_exclusion (st : AppState) (files : List JSFile)
    (uo : UploadOutcome) (co : ChatOutcome) :
    (handleFileUpload st files uo).fst.isProcessing = st.isProcessing ∧
    (handleSendMessage st co).fst.isProcessing = st.isProcessing ∧
    (st.isProcessing = true →
      handleFileUpload st files uo = (st, []) ∧
      handleSendMessage st co = (st, [])) :=
  ⟨handleFileUpload_isProcessing_eq st files uo,
   handleSendMessage_isProcessing_eq st co,
   fun h => ⟨handleFileUpload_busy st files uo h,
             handleSendMessage_busy st co h⟩⟩

/-- C1 witness: at a concrete busy state, both triggers are no-ops. -/
theorem busy_flag_mutual_exclusion_witness :
    handleFileUpload { baseState with isProcessing := true } [validPdf]
        (.ok none) = ({ baseState with isProcessing := true }, []) ∧
    handleSendMessage { baseState with isProcessing := true }
        (.ok none none) = ({ baseState with isProcessing := true }, []) :=
  (busy_flag_mutual_exclusion { baseState with isProcessing := true }
    [validPdf] (.ok none) (.ok none none)).2.2 rfl

/-- C2: upload validation passes exactly when every selected file has MIME
type `application/pdf` and size at most `10 * 1024 * 1024` bytes; when any
file violates either rule, the whole batch is aborted before any network
call — the handler issues no request (not even for the valid subset) and
leaves the state untouched. -/
theorem upload_validation_iff_pdf_and_size (st : AppState)
    (files : List JSFile) (uo : UploadOutcome) :
    (validateFiles files = [] ↔
      ∀ f ∈ files,
        f.type = "application/pdf" ∧ f.size ≤ CONFIG.MAX_FILE_SIZE) ∧
    (validateFiles files ≠ [] →
      networkCalls (handleFileUpload st files uo).snd = 0 ∧
      (handleFileUpload st files uo).fst = st) := by
  refine ⟨validateFiles_eq_nil_iff files, fun h => ?_⟩
  unfold handleFileUpload
  by_cases hb : st.isProcessing
  · simp [hb, networkCalls]
  · have hl : 0 < (validateFiles files).length := List.length_pos.mpr h
    simp [hb, hl, networkCalls_toasts]

/-- C2 witness: a 20 MB `.docx` fails validation and the handler issues no
request. -/
theorem upload_validation_iff_pdf_and_size_witness :
    networkCalls (handleFileUpload baseState [badDocx] (.ok none)).snd = 0 ∧
    (handleFileUpload baseState [badDocx] (.ok none)).fst = baseState :=
  (upload_validation_iff_pdf_and_size baseState [badDocx] (.ok none)).2
    (by decide)

/-- C9 counterexample: `essay.docx` (20 MB, wrong MIME type) is one
offending file, yet the workflow surfaces two notifications (one per
violated rule), so "exactly one notification per offending file" fails. -/
theorem upload_one_toast_per_file_counterexample :
    isOffending badDocx = true ∧
    (handleFileUpload baseState [badDocx] (.ok none)).snd =
      [.toast "essay.docx: Only PDF files are allowed" .error,
       .toast "essay.docx: File size exceeds 10 MB limit" .error] ∧
    (handleFileUpload baseState [badDocx] (.ok none)).snd.length ≠ 1 := by
  decide

/-- C9 (amended): for every file set containing a non-PDF or oversized
file, the upload workflow issues zero network calls and surfaces one error
notification per violated rule — a file violating both rules yields two
notifications.  (When not busy the trace is exactly the validation
messages as error toasts, and their number is the number of rule
violations.) -/
theorem invalid_files_zero_calls_one_toast_per_violation (st : AppState)
    (files : List JSFile) (uo : UploadOutcome)
    (h : ∃ f ∈ files, isOffending f = true) :
    networkCalls (handleFileUpload st files uo).snd = 0 ∧
    (st.isProcessing = false →
      (handleFileUpload st files uo).snd =
        (validateFiles files).map fun e => Event.toast e .error) ∧
    (validateFiles files).length = totalRuleViolations files := by
  have hne := validateFiles_ne_nil_of_offending files h
  have hl : 0 < (validateFiles files).length := List.length_pos.mpr hne
  refine ⟨?_, fun hb => ?_, validateFiles_length files⟩
  · unfold handleFileUpload
    by_cases hb : st.isProcessing
    · simp [hb, networkCalls]
    · simp [hb, hl, networkCalls_toasts]
  · unfold handleFileUpload
    simp [hb, hl]

/-- C9 witness: at the concrete offending file, zero network calls and the
two per-rule error toasts. -/
theorem invalid_files_zero_calls_one_toast_per_violation_witness :
    networkCalls (handleFileUpload baseState [badDocx] (.ok none)).snd = 0 ∧
    ((handleFileUpload baseState [badDocx] (.ok none)).snd =
      (validateFiles [badDocx]).map fun e => Event.toast e .error) ∧
    (validateFiles [badDocx]).length = totalRuleViolations [badDocx] := by
  have h := invalid_files_zero_calls_one_toast_per_violation baseState
    [badDocx] (.ok none) ⟨badDocx, by decide, by decide⟩
  exact ⟨h.1, h.2.1 rfl, h.2.2⟩

/-- Trimming is the identity on a replicated non-whitespace character. -/
theorem jsTrim_replicate (n : Nat) (c : Char) (h : c.isWhitespace = false) :
    jsTrim (String.mk (List.replicate n c)) = String.mk (List.replicate n c) := by
  simp [jsTrim, List.dropWhile_replicate, h, List.reverse_replicate]

/-- `longMessage` has no whitespace, so trimming is the identity on it. -/
theorem jsTrim_longMessage : jsTrim longMessage = longMessage :=
  jsTrim_replicate 2001 'a' (by decide)

/-- `longMessage` is one character over the limit. -/
theorem longMessage_length : longMessage.length = 2001 := by
  show (List.replicate 2001 'a').length = 2001
  rw [List.length_replicate]

/-- C3: a message that is empty after trimming is silently dropped; a
trimmed message longer than `CONFIG.MAX_MESSAGE_LENGTH` never reaches
`sendChatMessage` (no network request) and is not appended to the
transcript; when the limit is violated and the client is idle, the handler
raises exactly one warning notification and changes nothing else. -/
theorem invalid_message_never_sent (st : AppState) (co : ChatOutcome) :
    (jsTrim st.messageInputValue = "" →
      handleSendMessage st co = (st, [])) ∧
    ((jsTrim st.messageInputValue).length > CONFIG.MAX_MESSAGE_LENGTH →
      networkCalls (handleSendMessage st co).snd = 0 ∧
      (handleSendMessage st co).fst.transcript = st.transcript) ∧
    ((jsTrim st.messageInputValue).length > CONFIG.MAX_MESSAGE_LENGTH →
      st.isProcessing = false →
      handleSendMessage st co =
        (st,
         [.toast ("Message exceeds " ++ toString CONFIG.MAX_MESSAGE_LENGTH ++
                  " characters") .warning])) := by
  refine ⟨fun h => ?_, fun hlen => ?_, fun hlen hb => ?_⟩
  · unfold handleSendMessage
    simp [h]
  · have hne : ¬jsTrim st.messageInputValue = "" := by
      intro e
      rw [e] at hlen
      simp [CONFIG.MAX_MESSAGE_LENGTH] at hlen
    by_cases hb : st.isProcessing
    · unfold handleSendMessage
      simp [hb, networkCalls]
    · unfold handleSendMessage
      simp [hb, hne, hlen, networkCalls]
  · have hne : ¬jsTrim st.messageInputValue = "" := by
      intro e
      rw [e] at hlen
      simp [CONFIG.MAX_MESSAGE_LENGTH] at hlen
    unfold handleSendMessage
    simp [hb, hne, hlen]

/-- C3 witness: a whitespace-only input is dropped; a 2001-character input
produces only the warning toast. -/
theorem invalid_message_never_sent_witness :
    handleSendMessage { baseState with messageInputValue := "   " }
        (.ok none none) =
      ({ baseState with messageInputValue := "   " }, []) ∧
    handleSendMessage { baseState with messageInputValue := longMessage }
        (.ok none none) =
      ({ baseState with messageInputValue := longMessage },
       [.toast ("Message exceeds " ++ toString CONFIG.MAX_MESSAGE_LENGTH ++
                " characters") .warning]) := by
  constructor
  · exact (invalid_message_never_sent
      { baseState with messageInputValue := "   " } (.ok none none)).1
      (by decide)
  · exact (invalid_message_never_sent
      { baseState with messageInputValue := longMessage } (.ok none none)).2.2
      (by simp [jsTrim_longMessage, longMessage_length,
            CONFIG.MAX_MESSAGE_LENGTH]) rfl

/-- Removing the typing indicator just appended to a transcript that did
not contain one yields the transcript back. -/
theorem removeTypingIndicator_append_of_not_mem (l : List TranscriptEntry)
    (h : TranscriptEntry.typingIndicator ∉ l) :
    removeTypingIndicator (l ++ [.typingIndicator]) = l := by
  induction l with
  | nil => rfl
  | cons e rest ih =>
      cases e with
      | typingIndicator => simp at h
      | message r t s =>
          simp only [List.mem_cons, not_or] at h
          simp [removeTypingIndicator, ih h.2]

/-- C4: when an idle send of a valid message hits a failure (application
error or transport error), the handler appends the user's message (not
rolled back) followed immediately by exactly one fixed-text error bot
message with no source citations, raises one error notification, and
resets the busy flag to `false`. -/
theorem chat_failure_appends_error (st : AppState) (sid : String)
    (co : ChatOutcome)
    (hb : st.isProcessing = false)
    (hm : jsTrim st.messageInputValue ≠ "")
    (hlen : (jsTrim st.messageInputValue).length ≤ CONFIG.MAX_MESSAGE_LENGTH)
    (hsid : st.sessionId = some sid)
    (hclean : TranscriptEntry.typingIndicator ∉ st.transcript)
    (hfail : ∀ a c, co ≠ ChatOutcome.ok a c) :
    handleSendMessage st co =
      ({ st with
          transcript := st.transcript ++
            [.message .user (jsTrim st.messageInputValue) [],
             .message .bot connectionErrorMessage []],
          messageInputValue := "", isProcessing := false,
          sendBtnDisabled := false },
       [.networkRequest (.chat sid (jsTrim st.messageInputValue)),
        .toast "Failed to send message. Please try again." .error]) := by
  have hrm : removeTypingIndicator
      (st.transcript ++
        [TranscriptEntry.message .user (jsTrim st.messageInputValue) [],
         .typingIndicator]) =
      st.transcript ++
        [TranscriptEntry.message .user (jsTrim st.messageInputValue) []] := by
    have h0 := removeTypingIndicator_append_of_not_mem
      (st.transcript ++
        [TranscriptEntry.message .user (jsTrim st.messageInputValue) []])
      (by simp [hclean])
    simpa using h0
  have hnl : ¬(jsTrim st.messageInputValue).length >
      CONFIG.MAX_MESSAGE_LENGTH := Nat.not_lt.mpr hlen
  cases co with
  | ok a c => exact absurd rfl (hfail a c)
  | httpError d =>
      unfold handleSendMessage sendChatMessage
      simp [hb, hm, hnl, hsid, addMessage, hrm]
  | netFail m =>
      unfold handleSendMessage sendChatMessage
      simp [hb, hm, hnl, hsid, addMessage, hrm]

/-- C4 witness: a concrete idle state, valid message and transport
failure. -/
theorem chat_failure_appends_error_witness :
    handleSendMessage { baseState with messageInputValue := " hi " }
        (.netFail "boom") =
      ({ baseState with
          transcript := [.message .user "hi" [],
                         .message .bot connectionErrorMessage []],
          messageInputValue := "", isProcessing := false,
          sendBtnDisabled := false },
       [.networkRequest (.chat "session-1" "hi"),
        .toast "Failed to send message. Please try again." .error]) := by
  have h := chat_failure_appends_error
    { baseState with messageInputValue := " hi " } "session-1"
    (.netFail "boom") rfl (by decide) (by decide) rfl (by decide)
    (fun a c h => by cases h)
  simpa using h

/-- C8: a well-formed chat response carrying no answer text (absent or
empty `answer`) makes the handler append the fixed no-answer apology bot
message (no sources) instead of an answer; the trace holds the one chat
request and no notification at all, and the appended text is not the
connection-error transcript entry. -/
theorem empty_answer_fallback_not_error (st : AppState) (sid : String)
    (a : Option String) (c : Option (List SourceRef))
    (hb : st.isProcessing = false)
    (hm : jsTrim st.messageInputValue ≠ "")
    (hlen : (jsTrim st.messageInputValue).length ≤ CONFIG.MAX_MESSAGE_LENGTH)
    (hsid : st.sessionId = some sid)
    (hclean : TranscriptEntry.typingIndicator ∉ st.transcript)
    (hempty : a = none ∨ a = some "") :
    handleSendMessage st (.ok a c) =
      ({ st with
          transcript := st.transcript ++
            [.message .user (jsTrim st.messageInputValue) [],
             .message .bot noResponseApology []],
          messageInputValue := "", isProcessing := false,
          sendBtnDisabled := false },
       [.networkRequest (.chat sid (jsTrim st.messageInputValue))]) ∧
    noResponseApology ≠ connectionErrorMessage := by
  have hrm : removeTypingIndicator
      (st.transcript ++
        [TranscriptEntry.message .user (jsTrim st.messageInputValue) [],
         .typingIndicator]) =
      st.transcript ++
        [TranscriptEntry.message .user (jsTrim st.messageInputValue) []] := by
    have h0 := removeTypingIndicator_append_of_not_mem
      (st.transcript ++
        [TranscriptEntry.message .user (jsTrim st.messageInputValue) []])
      (by simp [hclean])
    simpa using h0
  have hnl : ¬(jsTrim st.messageInputValue).length >
      CONFIG.MAX_MESSAGE_LENGTH := Nat.not_lt.mpr hlen
  refine ⟨?_, by decide⟩
  rcases hempty with h | h <;> subst h <;>
    · unfold handleSendMessage sendChatMessage
      simp [hb, hm, hnl, hsid, addMessage, hrm]

/-- C8 witness: a concrete response with an empty answer string. -/
theorem empty_answer_fallback_not_error_witness :
    handleSendMessage { baseState with messageInputValue := "hi" }
        (.ok (some "") (some [⟨"thermo.pdf", 42⟩])) =
      ({ baseState with
          transcript := [.message .user "hi" [],
                         .message .bot noResponseApology []],
          messageInputValue := "", isProcessing := false,
          sendBtnDisabled := false },
       [.networkRequest (.chat "session-1" "hi")]) ∧
    noResponseApology ≠ connectionErrorMessage := by
  have h := empty_answer_fallback_not_error
    { baseState with messageInputValue := "hi" } "session-1"
    (some "") (some [⟨"thermo.pdf", 42⟩]) rfl (by decide) (by decide) rfl
    (by decide) (Or.inr rfl)
  simpa using h

/-- C10: with no session identifier set, sending a valid message issues no
network request at all: `sendChatMessage` returns `null` after raising the
"No active session" error toast, and the handler appends the generic
no-answer apology (not the connection-error message). -/
theorem no_session_chat_no_request (st : AppState) (co : ChatOutcome)
    (hb : st.isProcessing = false)
    (hm : jsTrim st.messageInputValue ≠ "")
    (hlen : (jsTrim st.messageInputValue).length ≤ CONFIG.MAX_MESSAGE_LENGTH)
    (hsid : st.sessionId = none)
    (hclean : TranscriptEntry.typingIndicator ∉ st.transcript) :
    handleSendMessage st co =
      ({ st with
          transcript := st.transcript ++
            [.message .user (jsTrim st.messageInputValue) [],
             .message .bot noResponseApology []],
          messageInputValue := "", isProcessing := false,
          sendBtnDisabled := false },
       [.toast "No active session. Please refresh the page." .error]) ∧
    networkCalls (handleSendMessage st co).snd = 0 ∧
    noResponseApology ≠ connectionErrorMessage := by
  have hrm : removeTypingIndicator
      (st.transcript ++
        [TranscriptEntry.message .user (jsTrim st.messageInputValue) [],
         .typingIndicator]) =
      st.transcript ++
        [TranscriptEntry.message .user (jsTrim st.messageInputValue) []] := by
    have h0 := removeTypingIndicator_append_of_not_mem
      (st.transcript ++
        [TranscriptEntry.message .user (jsTrim st.messageInputValue) []])
      (by simp [hclean])
    simpa using h0
  have hnl : ¬(jsTrim st.messageInputValue).length >
      CONFIG.MAX_MESSAGE_LENGTH := Nat.not_lt.mpr hlen
  have heq : handleSendMessage st co =
      ({ st with
          transcript := st.transcript ++
            [.message .user (jsTrim st.messageInputValue) [],
             .message .bot noResponseApology []],
          messageInputValue := "", isProcessing := false,
          sendBtnDisabled := false },
       [.toast "No active session. Please refresh the page." .error]) := by
    unfold handleSendMessage sendChatMessage
    simp [hb, hm, hnl, hsid, addMessage, hrm]
  refine ⟨heq, ?_, by decide⟩
  rw [heq]
  rfl

/-- C10 witness: a concrete no-session state. -/
theorem no_session_chat_no_request_witness :
    handleSendMessage
        { baseState with sessionId := none, messageInputValue := "hi" }
        (.ok (some "ans") none) =
      ({ baseState with
          sessionId := none,
          transcript := [.message .user "hi" [],
                         .message .bot noResponseApology []],
          messageInputValue := "", isProcessing := false,
          sendBtnDisabled := false },
       [.toast "No active session. Please refresh the page." .error]) ∧
    networkCalls (handleSendMessage
      { baseState with sessionId := none, messageInputValue := "hi" }
      (.ok (some "ans") none)).snd = 0 := by
  have h := no_session_chat_no_request
    { baseState with sessionId := none, messageInputValue := "hi" }
    (.ok (some "ans") none) rfl (by decide) (by decide) rfl (by decide)
  exact ⟨by simpa using h.1, h.2.1⟩

/-- `x || d` with a non-empty default is never empty. -/
theorem jsOrOpt_ne_empty (x : Option String) (d : String) (hd : d ≠ "") :
    jsOrOpt x d ≠ "" := by
  unfold jsOrOpt
  cases x with
  | none => exact hd
  | some s =>
      by_cases hs : s = "" <;> simp [hs, hd]

/-- `x || d` is `x` when `x` is non-empty. -/
theorem jsOrStr_eq_self (x d : String) (hx : x ≠ "") : jsOrStr x d = x := by
  simp [jsOrStr, hx]

/-- C5 counterexample: the backend provides the welcome message `""`, yet
the sole appended bot message carries the fixed fallback text rather than
the provided message (JavaScript `welcomeMessage || fallback` treats the
empty string as absent). -/
theorem upload_success_welcome_counterexample :
    (handleFileUpload baseState [validPdf] (.ok (some ""))).fst.transcript =
      [.message .bot fallbackWelcome []] ∧
    fallbackWelcome ≠ "" := by decide

/-- C5 (amended): every successful upload response surfaces a success
notification, transitions to ChatScreen, and appends exactly one bot
message whose text is the backend welcome message when that is a non-empty
string, and the fixed fallback string when the backend provided none or an
empty string (`jsOrOpt`). -/
theorem upload_success_welcome_and_screen (st : AppState)
    (files : List JSFile) (sid : String) (wm : Option String)
    (hb : st.isProcessing = false)
    (hval : validateFiles files = [])
    (hsid : st.sessionId = some sid) :
    handleFileUpload st files (.ok wm) =
      ({ st with
          isProcessing := false, currentFiles := files,
          uploadIdleHidden := true, uploadProcessingHidden := false,
          uploadZonePointerEvents := "none", progress := 100,
          activeScreen := .chat,
          transcript := st.transcript ++
            [.message .bot (jsOrOpt wm fallbackWelcome) []] },
       [.networkRequest (.upload sid files),
        .toast ("Successfully processed " ++ toString files.length ++
                " file(s)") .success]) := by
  unfold handleFileUpload uploadFiles
  simp [hb, hval, hsid, showWelcomeMessage, addMessage]

/-- C5 witness: Scenario A — a 5 MB PDF and the backend welcome text
`Ask me anything about Chapter 3`. -/
theorem upload_success_welcome_and_screen_witness :
    handleFileUpload baseState [validPdf]
        (.ok (some "Ask me anything about Chapter 3")) =
      ({ baseState with
          isProcessing := false, currentFiles := [validPdf],
          uploadIdleHidden := true, uploadProcessingHidden := false,
          uploadZonePointerEvents := "none", progress := 100,
          activeScreen := .chat,
          transcript :=
            [.message .bot "Ask me anything about Chapter 3" []] },
       [.networkRequest (.upload "session-1" [validPdf]),
        .toast "Successfully processed 1 file(s)" .success]) := by
  have h := upload_success_welcome_and_screen baseState [validPdf]
    "session-1" (some "Ask me anything about Chapter 3") rfl (by decide) rfl
  simpa using h

/-- C6: a failed upload attempt (application error carrying a backend
detail, or transport error) surfaces one error notification carrying the
failure's message, reverts the upload UI to its idle visual state (idle
view shown, processing view hidden, pointer events restored, progress 0),
stays on the current screen with the transcript untouched, and issues no
retry (the trace holds exactly one request). -/
theorem upload_failure_reverts_to_idle (st : AppState)
    (files : List JSFile) (sid : String) (d : Option String) (m : String)
    (hb : st.isProcessing = false)
    (hval : validateFiles files = [])
    (hsid : st.sessionId = some sid)
    (hm : m ≠ "") :
    handleFileUpload st files (.httpError d) =
      ({ st with
          isProcessing := false, currentFiles := files,
          uploadIdleHidden := false, uploadProcessingHidden := true,
          uploadZonePointerEvents := "auto", progress := 0 },
       [.networkRequest (.upload sid files),
        .toast (jsOrOpt d "Upload failed") .error]) ∧
    handleFileUpload st files (.netFail m) =
      ({ st with
          isProcessing := false, currentFiles := files,
          uploadIdleHidden := false, uploadProcessingHidden := true,
          uploadZonePointerEvents := "auto", progress := 0 },
       [.networkRequest (.upload sid files), .toast m .error]) := by
  have hd : jsOrOpt d "Upload failed" ≠ "" :=
    jsOrOpt_ne_empty d "Upload failed" (by decide)
  constructor
  · unfold handleFileUpload uploadFiles
    simp [hb, hval, hsid, jsOrStr_eq_self _ _ hd]
  · unfold handleFileUpload uploadFiles
    simp [hb, hval, hsid, jsOrStr_eq_self _ _ hm]

/-- C6 witness: a backend 500 with a `detail` string, and a transport
failure. -/
theorem upload_failure_reverts_to_idle_witness :
    handleFileUpload baseState [validPdf]
        (.httpError (some "PDF processing failed")) =
      ({ baseState with
          isProcessing := false, currentFiles := [validPdf],
          uploadIdleHidden := false, uploadProcessingHidden := true,
          uploadZonePointerEvents := "auto", progress := 0 },
       [.networkRequest (.upload "session-1" [validPdf]),
        .toast "PDF processing failed" .error]) ∧
    handleFileUpload baseState [validPdf]
        (.netFail "TypeError: Failed to fetch") =
      ({ baseState with
          isProcessing := false, currentFiles := [validPdf],
          uploadIdleHidden := false, uploadProcessingHidden := true,
          uploadZonePointerEvents := "auto", progress := 0 },
       [.networkRequest (.upload "session-1" [validPdf]),
        .toast "TypeError: Failed to fetch" .error]) := by
  have h := upload_failure_reverts_to_idle baseState [validPdf] "session-1"
    (some "PDF processing failed") "TypeError: Failed to fetch" rfl
    (by decide) rfl (by decide)
  exact ⟨by simpa using h.1, by simpa using h.2⟩

/-- C7: `initializeSession` returns a stored identifier without any
backend call; with no stored identifier it issues exactly one init
request, persists and returns the returned id on success, and on a non-2xx
response or transport failure it produces no session identifier (nothing
returned, nothing persisted) and surfaces the connection error. -/
theorem session_init_contract (o : InitOutcome) (sid : String) :
    initializeSession (some sid) o = (some sid, some sid, []) ∧
    networkCalls (initializeSession none o).2.2 = 1 ∧
    initializeSession none (.ok sid) =
      (some sid, some sid, [.networkRequest .sessionInit]) ∧
    ((∀ s, o ≠ InitOutcome.ok s) →
      initializeSession none o =
        (none, none,
         [.networkRequest .sessionInit,
          .toast "Failed to connect to server. Please check if the backend is running."
            .error])) := by
  refine ⟨rfl, ?_, rfl, fun h => ?_⟩
  · cases o <;> rfl
  · cases o with
    | ok s => exact absurd rfl (h s)
    | httpError => rfl
    | netFail m => rfl

/-- C7 witness: a stored id is reused as-is; with no stored id a non-2xx
init response yields one request, no identifier and the error toast. -/
theorem session_init_contract_witness :
    initializeSession (some "session-1") .httpError =
      (some "session-1", some "session-1", []) ∧
    networkCalls (initializeSession none .httpError).2.2 = 1 ∧
    initializeSession none (.ok "session-1") =
      (some "session-1", some "session-1",
       [.networkRequest .sessionInit]) ∧
    initializeSession none .httpError =
      (none, none,
       [.networkRequest .sessionInit,
        .toast "Failed to connect to server. Please check if the backend is running."
          .error]) := by
  have h := session_init_contract .httpError "session-1"
  exact ⟨h.1, h.2.1, h.2.2.1, h.2.2.2 (fun s => by simp)⟩

end SmartTutor
